import Mathlib

/-!
Verification of the canvas particle engine (`src/lib/particles/particle-engine.ts`).

The engine is shallowly embedded: JavaScript numbers are modelled as rationals
(`ℚ`), mutable class state as explicit records, and promise resolution as an
explicit resolve-identifier event.  `Math.random()` is modelled by a stream
`rnd : ℕ → ℚ` of successive outputs, consumed in the exact order the source
consumes them, so every randomized operation is a deterministic function of
the stream.  `Math.sqrt` is modelled by a function parameter `sq : ℚ → ℚ`
(instantiated with `ratSqrt`, which is exact on perfect squares, for concrete
evaluations).  Promise rejection never occurs in the transition paths of the
source; a thrown error is modelled with `Except.error`.
-/

namespace ParticleEngine

/-- Entry/exit edge for a slot (`Direction` in `types.ts`). -/
inductive Direction where
  | top
  | bottom
deriving DecidableEq, Repr

/-- A slot's target rectangle in viewport coordinates (`SlotRect` in `types.ts`). -/
structure SlotRect where
  x : ℚ
  y : ℚ
  w : ℚ
  h : ℚ
deriving DecidableEq, Repr

/-- Slot registration data (`SlotConfig` in `types.ts`); the image source is
replaced by the decoded image's pixel data, tracked separately. -/
structure SlotConfig where
  id : String
  rect : SlotRect
  direction : Direction
deriving DecidableEq, Repr

/-- Models the color string `rgba(r, g, b, alpha/255)` built by the sampler. -/
structure RGBA where
  r : ℕ
  g : ℕ
  b : ℕ
  a : ℚ
deriving DecidableEq, Repr

/-- A live slot particle (`interface Particle` in the source). -/
structure Particle where
  x : ℚ
  y : ℚ
  tx : ℚ
  ty : ℚ
  vx : ℚ
  vy : ℚ
  color : RGBA
  alpha : ℚ
  size : ℚ
deriving DecidableEq, Repr

/-- A background particle (`interface AmbientParticle` in the source). -/
structure AmbientParticle where
  x : ℚ
  y : ℚ
  vx : ℚ
  vy : ℚ
  baseVx : ℚ
  baseVy : ℚ
  size : ℚ
  alpha : ℚ
deriving DecidableEq, Repr

/-- The two directions of travel of an open transition
(the `status` field of `interface TransitionState`). -/
inductive TransitionStatus where
  | assembling
  | disassembling
deriving DecidableEq, Repr

/-- An open transition (`interface TransitionState`).  The pending promise's
resolving continuation is modelled by the identifier `resolveId`; invoking it
is modelled by emitting that identifier. -/
structure TransitionState where
  status : TransitionStatus
  startTime : ℚ
  durationMs : ℚ
  resolveId : ℕ
  direction : Direction
deriving DecidableEq, Repr

/-- A slot's lifecycle status (the `status` field of `interface SlotState`). -/
inductive SlotStatus where
  | hidden
  | assembling
  | assembled
  | disassembling
deriving DecidableEq, Repr

/-- Per-slot engine state (`interface SlotState`).  `imageComplete` models
`slot.image.complete`; the decoded pixel data is passed separately to the
operations that read it. -/
structure SlotState where
  config : SlotConfig
  visible : Bool
  imageComplete : Bool
  particles : List Particle
  status : SlotStatus
  transition : Option TransitionState
  alpha : ℚ
deriving DecidableEq, Repr

/-- Shared pointer state (`interface MouseState`). -/
structure MouseState where
  x : ℚ
  y : ℚ
  lastX : ℚ
  lastY : ℚ
  vx : ℚ
  vy : ℚ
  active : Bool
  down : Bool
deriving DecidableEq, Repr

/-- The engine fields touched by the render loop and the busy signal
(`class CanvasParticleEngine`); canvas/context handles are omitted. -/
structure EngineState where
  width : ℚ
  height : ℚ
  slots : List (String × SlotState)
  ambient : List AmbientParticle
  interactionEnabled : Bool
  busy : Bool
  lastFrameTime : ℚ
  mouse : MouseState
deriving DecidableEq, Repr

/-- Observable side effects: the busy-change callback and the invocation of a
pending transition promise's resolving continuation. -/
inductive EngineEvent where
  | busyChange (b : Bool)
  | resolvePromise (id : ℕ)
deriving DecidableEq, Repr

/-! ## Constants (lines 64–81 of the source) -/

def DEFAULT_DURATION_MS : ℚ := 1200

def SAMPLE_STEP : ℕ := 2

def MIN_ALPHA_THRESHOLD : ℕ := 24

def PARTICLE_SIZE : ℚ := 92/100

def SPRING : ℚ := 85/1000

def FRICTION : ℚ := 84/100

def INTERACTION_RADIUS : ℚ := 110

def INTERACTION_FORCE : ℚ := 42/100

def DRAG_FORCE : ℚ := 72/100

def AMBIENT_MOUSE_RADIUS : ℚ := 180

def AMBIENT_MOUSE_FORCE : ℚ := 28/10000

def AMBIENT_FRICTION : ℚ := 985/1000

def AMBIENT_RETURN : ℚ := 8/1000

def ASSEMBLE_ALPHA_RATE : ℚ := 12/100

def DISASSEMBLE_ALPHA_RATE : ℚ := 10/100

def TRANSITION_SETTLE_DISTANCE : ℚ := 14/10

def TRANSITION_SETTLE_VELOCITY : ℚ := 12/100

/-- Source function `clamp(value, min, max)`. -/
def clamp (value lo hi : ℚ) : ℚ := min hi (max lo value)

/-- Source function `randomBetween(min, max)`, with the `Math.random()` output `r` explicit. -/
def randomBetween (r lo hi : ℚ) : ℚ := lo + r * (hi - lo)

/-- Integer square root by exhaustive search (structurally computable). -/
def intSqrt (n : ℕ) : ℕ := ((List.range (n + 1)).filter (fun k => k * k ≤ n)).length - 1

/-- Models `Math.sqrt` for concrete evaluations; exact on perfect squares,
which are the only inputs evaluated concretely in this development. -/
def ratSqrt (q : ℚ) : ℚ := (intSqrt q.num.toNat : ℚ) / (intSqrt q.den : ℚ)

/-! ## Image sampler (`prepareParticles`, lines 368–420) -/

/-- Computes `Math.max(1, Math.round(d))` applied to a rect dimension
(`sampleWidth` / `sampleHeight`); `Math.round` is floor of `d + 1/2`. -/
def sampleDim (d : ℚ) : ℕ := (max 1 ⌊d + 1/2⌋).toNat

/-- The particle built for a kept sample at pixel `(px0, py0)` of the sample
grid: position is rect origin plus the pixel coordinate plus half the stride,
current position equals target, velocity is zero, color is read from the
pixel, alpha weight is `pixelAlpha/255`. -/
def sampleParticleAt (data : ℕ → ℕ) (width : ℕ) (rect : SlotRect) (px0 py0 : ℕ) : Particle :=
  let index := (py0 * width + px0) * 4
  let a := data (index + 3)
  let px := rect.x + (px0 : ℚ) + (SAMPLE_STEP : ℚ) * (1/2)
  let py := rect.y + (py0 : ℚ) + (SAMPLE_STEP : ℚ) * (1/2)
  { x := px, y := py, tx := px, ty := py, vx := 0, vy := 0,
    color := { r := data index, g := data (index + 1), b := data (index + 2), a := (a : ℚ) / 255 },
    alpha := (a : ℚ) / 255, size := PARTICLE_SIZE }

/-- The sampling loops of `prepareParticles`: iterate the pixel grid of the
decoded image data (`data`, with `width × height` the `getImageData`
dimensions) at stride `SAMPLE_STEP`, dropping pixels whose alpha channel is
below `MIN_ALPHA_THRESHOLD`. -/
def prepareParticlesList (data : ℕ → ℕ) (width height : ℕ) (rect : SlotRect) : List Particle :=
  (List.range' 0 ((height + 1) / 2) SAMPLE_STEP).flatMap (fun y =>
    (List.range' 0 ((width + 1) / 2) SAMPLE_STEP).filterMap (fun x =>
      if data ((y * width + x) * 4 + 3) < MIN_ALPHA_THRESHOLD then none
      else some (sampleParticleAt data width rect x y)))

/-- Source method `prepareParticles(slot)`: no-op on a degenerate rect or an undecoded
image, otherwise replaces the slot's particles with a fresh sampling pass
over the rounded rect dimensions. -/
def prepareParticles (data : ℕ → ℕ) (slot : SlotState) : SlotState :=
  if slot.config.rect.w ≤ 0 ∨ slot.config.rect.h ≤ 0 ∨ slot.imageComplete = false then slot
  else
    { slot with
        particles := prepareParticlesList data (sampleDim slot.config.rect.w)
          (sampleDim slot.config.rect.h) slot.config.rect }

/-- The body of the snap loop in `updateSlotRect` and of the completion loop
in `updateTransition`: move a particle exactly onto its target and zero its
velocity. -/
def snapParticle (p : Particle) : Particle :=
  { p with x := p.tx, y := p.ty, vx := 0, vy := 0 }

/-- Source method `updateSlotRect(id, rect)` after the slot has been found: store the new
rect, re-sample if the image is decoded, and snap particles to target when
the slot is already assembled. -/
def updateSlotRect (data : ℕ → ℕ) (slot : SlotState) (rect : SlotRect) : SlotState :=
  let slot1 := { slot with config := { slot.config with rect := rect } }
  if slot1.imageComplete = true then
    let slot2 := prepareParticles data slot1
    if slot2.status = SlotStatus.assembled then
      { slot2 with particles := slot2.particles.map snapParticle }
    else slot2
  else slot1

/-! ## Transition state machine (`runTransition`, lines 309–358) -/

/-- The slot status entered by a transition of the given kind. -/
def TransitionStatus.toSlotStatus : TransitionStatus → SlotStatus
  | TransitionStatus.assembling => SlotStatus.assembling
  | TransitionStatus.disassembling => SlotStatus.disassembling

/-- Source method `getOffscreenY(direction, rect)`, with the single `Math.random()` output
`r` explicit. -/
def getOffscreenY (r : ℚ) (engineHeight : ℚ) (direction : Direction) (rect : SlotRect) : ℚ :=
  match direction with
  | Direction.bottom => engineHeight + randomBetween r 16 (max 48 (rect.h * (6/10)))
  | Direction.top => -(randomBetween r 40 (max 120 (rect.h * (125/100))))

/-- The per-particle reseeding loop body of `runTransition`; `r0 r1 r2 r3`
are the four successive `Math.random()` outputs the iteration consumes.
Assembling randomizes the current position and velocity (targets stay the
sampled points); disassembling randomizes the target and perturbs the
velocity in place. -/
def seedParticle (status : TransitionStatus) (rect : SlotRect) (startY r0 r1 r2 r3 : ℚ)
    (p : Particle) : Particle :=
  match status with
  | TransitionStatus.assembling =>
      { p with
          x := randomBetween r0 rect.x (rect.x + rect.w),
          y := startY - randomBetween r1 0 (rect.h * (25/100)),
          vx := randomBetween r2 (-(35/100)) (35/100),
          vy := randomBetween r3 (12/10) (36/10) }
  | TransitionStatus.disassembling =>
      { p with
          tx := randomBetween r0 rect.x (rect.x + rect.w),
          ty := startY - randomBetween r1 0 (rect.h * (35/100)),
          vx := p.vx + randomBetween r2 (-(4/10)) (4/10),
          vy := p.vy + randomBetween r3 (-(12/10)) (4/10) }

/-- The body of `runTransition` after the rect guard has passed: force-resolve
any stale transition (returned as the second component), make the slot
visible, enter the new status, reseed every particle, reset the slot alpha,
and install the new transition record with resolve identifier `rid`.
`rnd` is the `Math.random()` stream: index 0 feeds `getOffscreenY`, indices
`4*i+1 … 4*i+4` feed particle `i`, in source consumption order. -/
def runTransitionOk (rnd : ℕ → ℚ) (now engineHeight : ℚ) (rid : ℕ) (slot : SlotState)
    (status : TransitionStatus) (direction : Direction) (durationMs : ℚ) :
    SlotState × Option ℕ :=
  let stale := slot.transition.map TransitionState.resolveId
  let startY := getOffscreenY (rnd 0) engineHeight direction slot.config.rect
  let particles1 := slot.particles.mapIdx (fun i p =>
    seedParticle status slot.config.rect startY (rnd (4*i+1)) (rnd (4*i+2)) (rnd (4*i+3))
      (rnd (4*i+4)) p)
  ({ slot with
      visible := true,
      status := status.toSlotStatus,
      particles := particles1,
      alpha := if status = TransitionStatus.assembling then 0 else 1,
      transition := some { status := status, startTime := now, durationMs := durationMs,
                           resolveId := rid, direction := direction } },
   stale)

/-- The thrown error message of the rect guard. -/
def noMeasurableRectMsg (id : String) : String :=
  "Slot \"" ++ id ++ "\" has no measurable rect."

/-- Source method `runTransition`: throws synchronously when the slot's rect has
non-positive width or height, otherwise performs `runTransitionOk`.
The second component of a successful result is the resolve identifier of the
superseded transition's promise, if one was in flight. -/
def runTransition (rnd : ℕ → ℚ) (now engineHeight : ℚ) (rid : ℕ) (slot : SlotState)
    (status : TransitionStatus) (direction : Direction) (durationMs : ℚ) :
    Except String (SlotState × Option ℕ) :=
  if slot.config.rect.w ≤ 0 ∨ slot.config.rect.h ≤ 0 then
    Except.error (noMeasurableRectMsg slot.config.id)
  else Except.ok (runTransitionOk rnd now engineHeight rid slot status direction durationMs)

/-- Optional arguments of `assemble` / `disassemble`. -/
structure TransitionOptions where
  direction : Option Direction := none
  durationMs : Option ℚ := none
deriving DecidableEq, Repr

/-- Source method `assemble(id, opts)` once the slot is looked up and its image is ready:
delegates to `runTransition` with the option defaults of the source. -/
def assemble (rnd : ℕ → ℚ) (now engineHeight : ℚ) (rid : ℕ) (slot : SlotState)
    (opts : TransitionOptions) : Except String (SlotState × Option ℕ) :=
  runTransition rnd now engineHeight rid slot TransitionStatus.assembling
    (opts.direction.getD slot.config.direction) (opts.durationMs.getD DEFAULT_DURATION_MS)

/-- Source method `disassemble(id, opts)` once the slot is looked up and its image is
ready. -/
def disassemble (rnd : ℕ → ℚ) (now engineHeight : ℚ) (rid : ℕ) (slot : SlotState)
    (opts : TransitionOptions) : Except String (SlotState × Option ℕ) :=
  runTransition rnd now engineHeight rid slot TransitionStatus.disassembling
    (opts.direction.getD slot.config.direction) (opts.durationMs.getD DEFAULT_DURATION_MS)

/-! ## Settle detection and completion (`updateTransition`, lines 496–556) -/

/-- The per-particle convergence condition of the settle loop: the loop marks
the transition unsettled exactly when some coordinate distance to target or
some velocity component strictly exceeds its threshold, so a particle is
settled when all four magnitudes are within the thresholds. -/
def particleSettled (p : Particle) : Prop :=
  |p.tx - p.x| ≤ TRANSITION_SETTLE_DISTANCE ∧ |p.ty - p.y| ≤ TRANSITION_SETTLE_DISTANCE ∧
    |p.vx| ≤ TRANSITION_SETTLE_VELOCITY ∧ |p.vy| ≤ TRANSITION_SETTLE_VELOCITY

instance (p : Particle) : Decidable (particleSettled p) := by
  unfold particleSettled; infer_instance

/-- The settle loop's result: every particle of the slot is settled (the
source's early `break` is an evaluation shortcut for this conjunction). -/
def allSettled (ps : List Particle) : Prop := ∀ p ∈ ps, particleSettled p

instance (ps : List Particle) : Decidable (allSettled ps) := List.decidableBAll _ ps

/-- Source method `updateTransition(slot, timestamp)`: advance the slot alpha by the
exponential smoothing step for the transition's kind; then, if the requested
duration has elapsed and every particle has settled, complete the transition
(assembling: status `assembled`, alpha 1, particles snapped; disassembling:
status `hidden`, visibility cleared, alpha 0), clear the transition record
and invoke its resolving continuation (returned as the second component). -/
def updateTransition (slot : SlotState) (timestamp : ℚ) : SlotState × Option ℕ :=
  match slot.transition with
  | none => (slot, none)
  | some transition =>
    let alpha1 :=
      match transition.status with
      | TransitionStatus.assembling => slot.alpha + (1 - slot.alpha) * ASSEMBLE_ALPHA_RATE
      | TransitionStatus.disassembling => slot.alpha + (0 - slot.alpha) * DISASSEMBLE_ALPHA_RATE
    let slot1 := { slot with alpha := alpha1 }
    if timestamp - transition.startTime < transition.durationMs then (slot1, none)
    else if allSettled slot1.particles then
      match transition.status with
      | TransitionStatus.assembling =>
          ({ slot1 with
              transition := none,
              status := SlotStatus.assembled,
              alpha := 1,
              particles := slot1.particles.map snapParticle },
           some transition.resolveId)
      | TransitionStatus.disassembling =>
          ({ slot1 with
              transition := none,
              status := SlotStatus.hidden,
              visible := false,
              alpha := 0 },
           some transition.resolveId)
    else (slot1, none)

/-! ## Physics integrator (`updateImageParticles`, `updateAmbientParticles`) -/

/-- The loop body of `updateImageParticles`: spring toward target, then the
pointer interaction force when the pointer is active AND interaction is
enabled, then friction, then integration.  `sq` models `Math.sqrt`. -/
def updateImageParticle (sq : ℚ → ℚ) (mouse : MouseState) (interactionEnabled : Bool)
    (delta : ℚ) (p : Particle) : Particle :=
  let activeMouse := mouse.active && interactionEnabled
  let interactionForce := if mouse.down then DRAG_FORCE else INTERACTION_FORCE
  let vx1 := p.vx + (p.tx - p.x) * SPRING * delta
  let vy1 := p.vy + (p.ty - p.y) * SPRING * delta
  let v2 :=
    if activeMouse then
      let dx := p.x - mouse.x
      let dy := p.y - mouse.y
      let distanceSq := dx * dx + dy * dy
      if distanceSq < INTERACTION_RADIUS * INTERACTION_RADIUS ∧ (1/10000 : ℚ) < distanceSq then
        let distance := sq distanceSq
        let influence := 1 - distance / INTERACTION_RADIUS
        let force := influence * interactionForce
        let nx := dx / distance
        let ny := dy / distance
        (vx1 + (nx * force * delta + mouse.vx * (12/1000) * influence),
         vy1 + (ny * force * delta + mouse.vy * (12/1000) * influence))
      else (vx1, vy1)
    else (vx1, vy1)
  let vx3 := v2.1 * FRICTION
  let vy3 := v2.2 * FRICTION
  { p with vx := vx3, vy := vy3, x := p.x + vx3 * delta, y := p.y + vy3 * delta }

/-- The horizontal wrap of ambient particles across the viewport edges. -/
def wrapCoord (bound v : ℚ) : ℚ :=
  if v < -8 then bound + 8 else if bound + 8 < v then -8 else v

/-- The loop body of `updateAmbientParticles`: relax velocity toward the base
drift, add the pointer proximity force when the pointer is active (note: the
source does NOT consult `interactionEnabled` here), then friction,
integration, and edge wrapping. -/
def updateAmbientParticle (sq : ℚ → ℚ) (mouse : MouseState) (width height delta : ℚ)
    (p : AmbientParticle) : AmbientParticle :=
  let vx1 := p.vx + (p.baseVx - p.vx) * AMBIENT_RETURN * delta
  let vy1 := p.vy + (p.baseVy - p.vy) * AMBIENT_RETURN * delta
  let v2 :=
    if mouse.active then
      let dx := p.x - mouse.x
      let dy := p.y - mouse.y
      let distanceSq := dx * dx + dy * dy
      if distanceSq < AMBIENT_MOUSE_RADIUS * AMBIENT_MOUSE_RADIUS ∧ (1/10000 : ℚ) < distanceSq then
        let distance := sq distanceSq
        let influence := 1 - distance / AMBIENT_MOUSE_RADIUS
        (vx1 + dx * AMBIENT_MOUSE_FORCE * influence * delta,
         vy1 + dy * AMBIENT_MOUSE_FORCE * influence * delta)
      else (vx1, vy1)
    else (vx1, vy1)
  let vx3 := v2.1 * AMBIENT_FRICTION
  let vy3 := v2.2 * AMBIENT_FRICTION
  { p with
      vx := vx3, vy := vy3,
      x := wrapCoord width (p.x + vx3 * delta),
      y := wrapCoord height (p.y + vy3 * delta) }

/-! ## Render loop and busy signal (`render`, lines 455–494; `updateBusyState`,
lines 666–680) -/

/-- One slot's processing inside the render loop: skipped entirely when the
slot is invisible or its particle list is empty; otherwise the open
transition (if any) is advanced first and counted toward the frame's
`hasTransition` flag, then the particle physics integrates.  Returns the
updated slot, this slot's `hasTransition` contribution, and the resolve
identifiers fired. -/
def renderSlot (sq : ℚ → ℚ) (mouse : MouseState) (interactionEnabled : Bool)
    (timestamp delta : ℚ) (s : SlotState) : SlotState × Bool × List ℕ :=
  if s.visible = false ∨ s.particles = [] then (s, false, [])
  else
    let hasT := s.transition.isSome
    let step1 := if hasT then updateTransition s timestamp else (s, none)
    let s2 :=
      { step1.1 with
          particles := step1.1.particles.map (updateImageParticle sq mouse interactionEnabled delta) }
    (s2, hasT, step1.2.toList)

/-- Whether a slot is counted by the render loop's per-frame busy
recomputation: visible, nonempty particle list, and an open transition. -/
def countedInBusy (s : SlotState) : Bool :=
  s.visible && !s.particles.isEmpty && s.transition.isSome

/-- Whether any registered slot has an open transition (the aggregate the
spec describes, and the one `updateBusyState` computes). -/
def anySlotHasTransition (e : EngineState) : Bool :=
  e.slots.any (fun pr => pr.2.transition.isSome)

/-- Source method `updateBusyState()`: recompute the aggregate over ALL slots and fire the
busy-change callback when it differs from the stored flag. -/
def updateBusyState (e : EngineState) : EngineState × List EngineEvent :=
  let hasTransition := anySlotHasTransition e
  if e.busy ≠ hasTransition then
    ({ e with busy := hasTransition }, [EngineEvent.busyChange hasTransition])
  else (e, [])

/-- The clamped frame-time delta factor computed at the top of `render`
(nominal frame 16.67 ms, clamped to [0.6, 1.6]). -/
def renderDelta (e : EngineState) (timestamp : ℚ) : ℚ :=
  clamp ((if e.lastFrameTime = 0 then (1667/100 : ℚ) else timestamp - e.lastFrameTime) /
    (1667/100)) (6/10) (16/10)

/-- One frame of `render(timestamp)`: compute the clamped frame delta, update
ambient particles, process every slot via `renderSlot` (collecting the
updated slot, the `hasTransition` contribution and the fired resolve
identifiers of each), recompute the busy flag (firing the callback on
change), and re-enable interaction when no slot contributed a transition.
Canvas drawing is visual-only and omitted. -/
def render (sq : ℚ → ℚ) (e : EngineState) (timestamp : ℚ) : EngineState × List EngineEvent :=
  let delta := renderDelta e timestamp
  let ambient1 := e.ambient.map (updateAmbientParticle sq e.mouse e.width e.height delta)
  let slots1 := e.slots.map (fun pr =>
    (pr.1, (renderSlot sq e.mouse e.interactionEnabled timestamp delta pr.2).1))
  let hasTransition := e.slots.any (fun pr =>
    (renderSlot sq e.mouse e.interactionEnabled timestamp delta pr.2).2.1)
  let resolveEvents := (e.slots.map (fun pr =>
    (renderSlot sq e.mouse e.interactionEnabled timestamp delta pr.2).2.2)).flatten.map
      EngineEvent.resolvePromise
  let busyEvents := if e.busy ≠ hasTransition then [EngineEvent.busyChange hasTransition] else []
  let interaction1 := if hasTransition = false then true else e.interactionEnabled
  ({ e with
      slots := slots1,
      ambient := ambient1,
      lastFrameTime := timestamp,
      busy := hasTransition,
      interactionEnabled := interaction1 },
   resolveEvents ++ busyEvents)

/-- A sequence of render frames at the given timestamps, accumulating the
emitted events in order. -/
def renderMany (sq : ℚ → ℚ) (e : EngineState) (tss : List ℚ) : EngineState × List EngineEvent :=
  match tss with
  | [] => (e, [])
  | ts :: rest =>
    let step := render sq e ts
    let next := renderMany sq step.1 rest
    (next.1, step.2 ++ next.2)

/-! ## Helper lemmas -/

lemma snapParticle_x (p : Particle) : (snapParticle p).x = (snapParticle p).tx := rfl

lemma snapParticle_y (p : Particle) : (snapParticle p).y = (snapParticle p).ty := rfl

lemma snapParticle_vx (p : Particle) : (snapParticle p).vx = 0 := rfl

lemma snapParticle_vy (p : Particle) : (snapParticle p).vy = 0 := rfl

/-- Full characterization of `updateTransition` on a slot with an open
transition: shared between the settle-semantics and superseding claims. -/
lemma updateTransition_spec (slot : SlotState) (t : TransitionState) (ts : ℚ)
    (h : slot.transition = some t) :
    ((updateTransition slot ts).2 = some t.resolveId ↔
      t.durationMs ≤ ts - t.startTime ∧ allSettled slot.particles)
    ∧ ((updateTransition slot ts).2 = none ∨ (updateTransition slot ts).2 = some t.resolveId)
    ∧ (t.durationMs ≤ ts - t.startTime → allSettled slot.particles →
        (updateTransition slot ts).1.transition = none
        ∧ (t.status = TransitionStatus.assembling →
            (updateTransition slot ts).1.status = SlotStatus.assembled
            ∧ (updateTransition slot ts).1.alpha = 1
            ∧ ∀ p ∈ (updateTransition slot ts).1.particles,
                p.x = p.tx ∧ p.y = p.ty ∧ p.vx = 0 ∧ p.vy = 0)
        ∧ (t.status = TransitionStatus.disassembling →
            (updateTransition slot ts).1.status = SlotStatus.hidden
            ∧ (updateTransition slot ts).1.visible = false
            ∧ (updateTransition slot ts).1.alpha = 0)) := by
  obtain ⟨st, t0, dur, rid, dir⟩ := t
  cases st
  case assembling =>
    simp only [updateTransition, h]
    by_cases h1 : ts - t0 < dur
    · rw [if_pos h1]
      refine ⟨⟨fun hc => absurd hc (by simp), fun ⟨hd, _⟩ => absurd h1 (not_lt.mpr hd)⟩,
        Or.inl rfl, fun hd => absurd h1 (not_lt.mpr hd)⟩
    · rw [if_neg h1]
      by_cases h2 : allSettled slot.particles
      · rw [if_pos (show allSettled _ from h2)]
        refine ⟨⟨fun _ => ⟨not_lt.mp h1, h2⟩, fun _ => rfl⟩, Or.inr rfl, fun _ _ => ?_⟩
        refine ⟨rfl, ?_, ?_⟩
        · intro _
          refine ⟨rfl, rfl, fun p hp => ?_⟩
          rcases List.mem_map.mp hp with ⟨q, _, rfl⟩
          exact ⟨snapParticle_x q, snapParticle_y q, snapParticle_vx q, snapParticle_vy q⟩
        · intro hst
          exact absurd hst (by decide)
      · rw [if_neg (show ¬ allSettled _ from h2)]
        exact ⟨⟨fun hc => absurd hc (by simp), fun ⟨_, hs⟩ => absurd hs h2⟩,
          Or.inl rfl, fun _ hs => absurd hs h2⟩
  case disassembling =>
    simp only [updateTransition, h]
    by_cases h1 : ts - t0 < dur
    · rw [if_pos h1]
      refine ⟨⟨fun hc => absurd hc (by simp), fun ⟨hd, _⟩ => absurd h1 (not_lt.mpr hd)⟩,
        Or.inl rfl, fun hd => absurd h1 (not_lt.mpr hd)⟩
    · rw [if_neg h1]
      by_cases h2 : allSettled slot.particles
      · rw [if_pos (show allSettled _ from h2)]
        refine ⟨⟨fun _ => ⟨not_lt.mp h1, h2⟩, fun _ => rfl⟩, Or.inr rfl, fun _ _ => ?_⟩
        refine ⟨rfl, ?_, ?_⟩
        · intro hst
          exact absurd hst (by decide)
        · intro _
          exact ⟨rfl, rfl, rfl⟩
      · rw [if_neg (show ¬ allSettled _ from h2)]
        exact ⟨⟨fun hc => absurd hc (by simp), fun ⟨_, hs⟩ => absurd hs h2⟩,
          Or.inl rfl, fun _ hs => absurd hs h2⟩

/-! ## C1: settle detection and completion semantics -/

/-- C1.  For a slot with an open transition, one `updateTransition` call
invokes the pending promise's resolving continuation exactly when the
wall-clock elapsed time since the transition's start has reached the
requested duration AND every particle has settled (position within the
settle distance of its target on each axis, velocity components within the
settle threshold); the only continuation it can invoke is this transition's;
and at that moment an assembling transition sets status `assembled`, alpha
exactly 1, every particle exactly on target with zero velocity, while a
disassembling transition sets status `hidden`, visibility `false` and alpha
exactly 0, clearing the transition record.  In particular the promise never
resolves at mere duration elapse without the convergence condition. -/
theorem updateTransition_resolves_iff_settled (slot : SlotState) (t : TransitionState) (ts : ℚ)
    (h : slot.transition = some t) :
    ((updateTransition slot ts).2 = some t.resolveId ↔
      t.durationMs ≤ ts - t.startTime ∧ allSettled slot.particles)
    ∧ ((updateTransition slot ts).2 = none ∨ (updateTransition slot ts).2 = some t.resolveId)
    ∧ (t.durationMs ≤ ts - t.startTime → allSettled slot.particles →
        (updateTransition slot ts).1.transition = none
        ∧ (t.status = TransitionStatus.assembling →
            (updateTransition slot ts).1.status = SlotStatus.assembled
            ∧ (updateTransition slot ts).1.alpha = 1
            ∧ ∀ p ∈ (updateTransition slot ts).1.particles,
                p.x = p.tx ∧ p.y = p.ty ∧ p.vx = 0 ∧ p.vy = 0)
        ∧ (t.status = TransitionStatus.disassembling →
            (updateTransition slot ts).1.status = SlotStatus.hidden
            ∧ (updateTransition slot ts).1.visible = false
            ∧ (updateTransition slot ts).1.alpha = 0)) :=
  updateTransition_spec slot t ts h

/-- A concrete slot with an open assembling transition whose single particle
has settled exactly on its target. -/
def slotC1 : SlotState :=
  { config := { id := "hero", rect := { x := 0, y := 0, w := 2, h := 2 },
                direction := Direction.top },
    visible := true, imageComplete := true,
    particles := [{ x := 1, y := 1, tx := 1, ty := 1, vx := 0, vy := 0,
                    color := { r := 10, g := 20, b := 30, a := 1 }, alpha := 1,
                    size := PARTICLE_SIZE }],
    status := SlotStatus.assembling,
    transition := some { status := TransitionStatus.assembling, startTime := 0,
                         durationMs := 100, resolveId := 3, direction := Direction.top },
    alpha := 1/2 }

/-- Witness for C1: at timestamp 150 the transition of `slotC1` (duration
100, settled particle) resolves and completes to `assembled` with alpha 1. -/
theorem updateTransition_resolves_iff_settled_witness :
    (updateTransition slotC1 150).2 = some 3
    ∧ (updateTransition slotC1 150).1.status = SlotStatus.assembled
    ∧ (updateTransition slotC1 150).1.alpha = 1 := by
  have h := updateTransition_resolves_iff_settled slotC1
    { status := TransitionStatus.assembling, startTime := 0, durationMs := 100,
      resolveId := 3, direction := Direction.top } 150 rfl
  have hd : (100:ℚ) ≤ 150 - 0 := by norm_num
  have hs : allSettled slotC1.particles := by
    intro p hp
    simp only [slotC1, List.mem_singleton] at hp
    subst hp
    refine ⟨?_, ?_, ?_, ?_⟩ <;>
      norm_num [TRANSITION_SETTLE_DISTANCE, TRANSITION_SETTLE_VELOCITY]
  exact ⟨h.1.mpr ⟨hd, hs⟩, ((h.2.2 hd hs).2.1 rfl).1, ((h.2.2 hd hs).2.1 rfl).2.1⟩

/-! ## C2: assemble on an already-assembled slot -/

/-- Mapping a field that the indexed reseeding map leaves unchanged. -/
lemma map_mapIdx_eq {α β : Type _} (l : List α) (f : ℕ → α → α) (g : α → β)
    (hg : ∀ i a, g (f i a) = g a) : (l.mapIdx f).map g = l.map g := by
  rw [List.mapIdx_eq_enum_map, List.map_map]
  rw [show (g ∘ Function.uncurry f) = ((fun p : ℕ × α => g p.2)) from
    funext fun p => hg p.1 p.2]
  rw [show (fun p : ℕ × α => g p.2) = g ∘ Prod.snd from rfl, ← List.map_map,
    List.enum_map_snd]

/-- The stale-resolution component of `runTransitionOk`. -/
lemma runTransitionOk_snd (rnd : ℕ → ℚ) (now eh : ℚ) (rid : ℕ) (slot : SlotState)
    (status : TransitionStatus) (dir : Direction) (dur : ℚ) :
    (runTransitionOk rnd now eh rid slot status dir dur).2 =
      slot.transition.map TransitionState.resolveId := rfl

/-- An already-assembled slot: particle exactly on target, alpha 1, no open
transition. -/
def slotC2 : SlotState :=
  { config := { id := "hero", rect := { x := 0, y := 0, w := 2, h := 2 },
                direction := Direction.top },
    visible := true, imageComplete := true,
    particles := [{ x := 1, y := 1, tx := 1, ty := 1, vx := 0, vy := 0,
                    color := { r := 10, g := 20, b := 30, a := 1 }, alpha := 1,
                    size := PARTICLE_SIZE }],
    status := SlotStatus.assembled,
    transition := none,
    alpha := 1 }

/-- Counterexample to C2 as stated: calling `assemble` on the
already-assembled `slotC2` (no intervening `disassemble`) is NOT a no-op.
With the zero random stream the call succeeds, changes the status to
`assembling`, changes the alpha from 1 to 0, and resets the particle's
position from its target (1,1) to the off-screen seed (0,-40) with nonzero
velocity. -/
theorem assemble_on_assembled_not_noop :
    (assemble (fun _ => 0) 50 100 7 slotC2 {}).map
        (fun pr => (pr.2, pr.1.status, pr.1.alpha,
          pr.1.particles.map (fun p => (p.x, p.y, p.vx, p.vy)))) =
      Except.ok (none, SlotStatus.assembling, 0, [(0, -40, -(35/100), 12/10)])
    ∧ slotC2.status = SlotStatus.assembled ∧ slotC2.alpha = 1
    ∧ slotC2.particles.map (fun p => (p.x, p.y, p.vx, p.vy)) = [(1, 1, 0, 0)] := by
  refine ⟨?_, rfl, rfl, by norm_num [slotC2]⟩
  rw [assemble, runTransition, if_neg (by norm_num [slotC2])]
  simp only [Except.map, runTransitionOk, slotC2]
  norm_num [List.mapIdx_cons, seedParticle, randomBetween, getOffscreenY,
    TransitionStatus.toSlotStatus, max_def]

/-- C2 amended.  Calling `assemble` on an already-assembled slot (positive
rect, no in-flight transition) is not a no-op: it succeeds without resolving
any stale promise, restarts a full assembling transition (status
`assembling`, alpha reset to 0, a fresh transition record with the requested
duration), and reseeds every particle's current position and velocity while
preserving the particle count and every particle's target. -/
theorem assemble_on_assembled_restarts (rnd : ℕ → ℚ) (now eh : ℚ) (rid : ℕ)
    (slot : SlotState) (opts : TransitionOptions)
    (h1 : slot.status = SlotStatus.assembled) (h2 : slot.transition = none)
    (h3 : 0 < slot.config.rect.w) (h4 : 0 < slot.config.rect.h) :
    assemble rnd now eh rid slot opts =
      Except.ok ((runTransitionOk rnd now eh rid slot TransitionStatus.assembling
        (opts.direction.getD slot.config.direction)
        (opts.durationMs.getD DEFAULT_DURATION_MS)).1, none)
    ∧ (runTransitionOk rnd now eh rid slot TransitionStatus.assembling
        (opts.direction.getD slot.config.direction)
        (opts.durationMs.getD DEFAULT_DURATION_MS)).1.status = SlotStatus.assembling
    ∧ (runTransitionOk rnd now eh rid slot TransitionStatus.assembling
        (opts.direction.getD slot.config.direction)
        (opts.durationMs.getD DEFAULT_DURATION_MS)).1.alpha = 0
    ∧ (runTransitionOk rnd now eh rid slot TransitionStatus.assembling
        (opts.direction.getD slot.config.direction)
        (opts.durationMs.getD DEFAULT_DURATION_MS)).1.transition =
        some { status := TransitionStatus.assembling, startTime := now,
               durationMs := opts.durationMs.getD DEFAULT_DURATION_MS, resolveId := rid,
               direction := opts.direction.getD slot.config.direction }
    ∧ (runTransitionOk rnd now eh rid slot TransitionStatus.assembling
        (opts.direction.getD slot.config.direction)
        (opts.durationMs.getD DEFAULT_DURATION_MS)).1.particles.map Particle.tx =
        slot.particles.map Particle.tx
    ∧ (runTransitionOk rnd now eh rid slot TransitionStatus.assembling
        (opts.direction.getD slot.config.direction)
        (opts.durationMs.getD DEFAULT_DURATION_MS)).1.particles.map Particle.ty =
        slot.particles.map Particle.ty
    ∧ (runTransitionOk rnd now eh rid slot TransitionStatus.assembling
        (opts.direction.getD slot.config.direction)
        (opts.durationMs.getD DEFAULT_DURATION_MS)).1.particles.length =
        slot.particles.length := by
  refine ⟨?_, rfl, rfl, rfl, ?_, ?_, ?_⟩
  · rw [assemble, runTransition,
      if_neg (by rw [not_or]; exact ⟨not_le.mpr h3, not_le.mpr h4⟩)]
    have := runTransitionOk_snd rnd now eh rid slot TransitionStatus.assembling
      (opts.direction.getD slot.config.direction) (opts.durationMs.getD DEFAULT_DURATION_MS)
    rw [h2] at this
    exact congrArg Except.ok (Prod.ext rfl this)
  · exact map_mapIdx_eq _ _ _ (fun i a => rfl)
  · exact map_mapIdx_eq _ _ _ (fun i a => rfl)
  · exact List.length_mapIdx

/-- Witness for the amended C2 at the concrete slot `slotC2`. -/
theorem assemble_on_assembled_restarts_witness :
    (runTransitionOk (fun _ => 0) 50 100 7 slotC2 TransitionStatus.assembling
      Direction.top DEFAULT_DURATION_MS).1.status = SlotStatus.assembling
    ∧ (runTransitionOk (fun _ => 0) 50 100 7 slotC2 TransitionStatus.assembling
        Direction.top DEFAULT_DURATION_MS).1.particles.map Particle.tx =
        slotC2.particles.map Particle.tx := by
  have h := assemble_on_assembled_restarts (fun _ => 0) 50 100 7 slotC2 {} rfl rfl
    (by norm_num [slotC2]) (by norm_num [slotC2])
  exact ⟨h.2.1, h.2.2.2.2.1⟩

/-! ## C3: superseding an in-flight transition -/

/-- C3.  A new transition request on a slot with a transition already in
flight and a positive-area rect succeeds (never throws, never rejects),
immediately returns the stale transition's resolve identifier (resolving its
pending promise), installs exactly the newly requested transition record (no
queueing), puts the slot in the requested status; and when the new request is
a `disassemble`, a later settling frame completes it to `hidden` with
visibility cleared, resolving the NEW promise — last caller wins. -/
theorem runTransition_supersedes (rnd : ℕ → ℚ) (now eh : ℚ) (rid : ℕ)
    (slot : SlotState) (status : TransitionStatus) (dir : Direction) (dur : ℚ)
    (t : TransitionState) (ts : ℚ)
    (h : slot.transition = some t)
    (h3 : 0 < slot.config.rect.w) (h4 : 0 < slot.config.rect.h) :
    runTransition rnd now eh rid slot status dir dur =
      Except.ok ((runTransitionOk rnd now eh rid slot status dir dur).1, some t.resolveId)
    ∧ (runTransitionOk rnd now eh rid slot status dir dur).1.transition =
        some { status := status, startTime := now, durationMs := dur,
               resolveId := rid, direction := dir }
    ∧ (runTransitionOk rnd now eh rid slot status dir dur).1.status = status.toSlotStatus
    ∧ (status = TransitionStatus.disassembling → dur ≤ ts - now →
        allSettled (runTransitionOk rnd now eh rid slot status dir dur).1.particles →
        (updateTransition (runTransitionOk rnd now eh rid slot status dir dur).1 ts).1.status =
          SlotStatus.hidden
        ∧ (updateTransition (runTransitionOk rnd now eh rid slot status dir dur).1 ts).1.visible =
            false
        ∧ (updateTransition (runTransitionOk rnd now eh rid slot status dir dur).1 ts).2 =
            some rid) := by
  refine ⟨?_, rfl, rfl, ?_⟩
  · rw [runTransition, if_neg (by rw [not_or]; exact ⟨not_le.mpr h3, not_le.mpr h4⟩)]
    have hsnd := runTransitionOk_snd rnd now eh rid slot status dir dur
    rw [h] at hsnd
    exact congrArg Except.ok (Prod.ext rfl hsnd)
  · intro hst hd hs
    subst hst
    have hspec := updateTransition_spec
      (runTransitionOk rnd now eh rid slot TransitionStatus.disassembling dir dur).1
      { status := TransitionStatus.disassembling, startTime := now, durationMs := dur,
        resolveId := rid, direction := dir } ts rfl
    have hc := (hspec.2.2 hd hs).2.2 rfl
    exact ⟨hc.1, hc.2.1, hspec.1.mpr ⟨hd, hs⟩⟩

/-- The pseudo-random stream used by the C3 witness: outputs 1/2 except for
the fourth particle draw, which outputs 3/4 so the reseeded vertical velocity
is exactly zero. -/
def rndC3 : ℕ → ℚ := fun i => if i = 4 then 3/4 else 1/2

/-- A slot with an in-flight assembling transition (resolve identifier 5)
whose particle sits exactly where the C3 witness's disassemble reseed will
place its target. -/
def slotC3 : SlotState :=
  { config := { id := "hero", rect := { x := 0, y := 0, w := 2, h := 2 },
                direction := Direction.top },
    visible := true, imageComplete := true,
    particles := [{ x := 1, y := -1607/20, tx := 1, ty := 1, vx := 0, vy := 0,
                    color := { r := 10, g := 20, b := 30, a := 1 }, alpha := 1,
                    size := PARTICLE_SIZE }],
    status := SlotStatus.assembling,
    transition := some { status := TransitionStatus.assembling, startTime := -500,
                         durationMs := 1200, resolveId := 5, direction := Direction.top },
    alpha := 1/2 }

/-- Witness for C3: a `disassemble` issued while `slotC3`'s assemble is in
flight resolves the stale promise (identifier 5) at once, and the settling
frame at timestamp 200 ends the slot `hidden`, resolving the new promise
(identifier 6). -/
theorem runTransition_supersedes_witness :
    runTransition rndC3 0 100 6 slotC3 TransitionStatus.disassembling Direction.top 100 =
      Except.ok ((runTransitionOk rndC3 0 100 6 slotC3 TransitionStatus.disassembling
        Direction.top 100).1, some 5)
    ∧ (updateTransition (runTransitionOk rndC3 0 100 6 slotC3
        TransitionStatus.disassembling Direction.top 100).1 200).1.status = SlotStatus.hidden
    ∧ (updateTransition (runTransitionOk rndC3 0 100 6 slotC3
        TransitionStatus.disassembling Direction.top 100).1 200).2 = some 6 := by
  have hs : allSettled (runTransitionOk rndC3 0 100 6 slotC3
      TransitionStatus.disassembling Direction.top 100).1.particles := by
    intro p hp
    simp only [runTransitionOk, slotC3, List.mapIdx_cons, List.mapIdx_nil,
      List.mem_singleton] at hp
    subst hp
    refine ⟨?_, ?_, ?_, ?_⟩ <;>
      norm_num [seedParticle, randomBetween, getOffscreenY, rndC3, max_def,
        TRANSITION_SETTLE_DISTANCE, TRANSITION_SETTLE_VELOCITY]
  have h := runTransition_supersedes rndC3 0 100 6 slotC3 TransitionStatus.disassembling
    Direction.top 100
    { status := TransitionStatus.assembling, startTime := -500, durationMs := 1200,
      resolveId := 5, direction := Direction.top } 200 rfl
    (by norm_num [slotC3]) (by norm_num [slotC3])
  have hc := h.2.2.2 rfl (by norm_num) hs
  exact ⟨h.1, hc.1, hc.2.2⟩

/-! ## C4: degenerate-rect precondition failure -/

/-- C4.  Requesting a transition on a slot whose rect has non-positive width
or height throws synchronously: the result is exactly the "no measurable
rect" error.  The error carries no successor state and no resolve
identifier, and in the source the check precedes every assignment, so the
slot's status, alpha, visibility, particles, targets, velocities and any
in-flight transition (with its still-unresolved promise) are left exactly as
they were. -/
theorem runTransition_degenerate_rect_throws (rnd : ℕ → ℚ) (now eh : ℚ) (rid : ℕ)
    (slot : SlotState) (status : TransitionStatus) (dir : Direction) (dur : ℚ)
    (h : slot.config.rect.w ≤ 0 ∨ slot.config.rect.h ≤ 0) :
    runTransition rnd now eh rid slot status dir dur =
      Except.error (noMeasurableRectMsg slot.config.id) := by
  rw [runTransition, if_pos h]

/-- A slot with a zero-width rect and an in-flight transition. -/
def slotC4 : SlotState :=
  { config := { id := "menu-photo", rect := { x := 5, y := 5, w := 0, h := 3 },
                direction := Direction.bottom },
    visible := true, imageComplete := true,
    particles := [{ x := 1, y := 1, tx := 2, ty := 2, vx := 3, vy := 3,
                    color := { r := 0, g := 0, b := 0, a := 1 }, alpha := 1,
                    size := PARTICLE_SIZE }],
    status := SlotStatus.assembling,
    transition := some { status := TransitionStatus.assembling, startTime := 0,
                         durationMs := 100, resolveId := 9, direction := Direction.top },
    alpha := 1/2 }

/-- Witness for C4 at the zero-width slot `slotC4`. -/
theorem runTransition_degenerate_rect_throws_witness :
    runTransition (fun _ => 0) 0 100 11 slotC4 TransitionStatus.assembling
      Direction.top 100 = Except.error (noMeasurableRectMsg "menu-photo") :=
  runTransition_degenerate_rect_throws (fun _ => 0) 0 100 11 slotC4
    TransitionStatus.assembling Direction.top 100 (Or.inl (by norm_num [slotC4]))

/-! ## C6: sampler characterization -/

/-- Membership characterization of a sampling pass, shared between the
sampler and re-sampling claims. -/
lemma mem_prepareParticlesList {data : ℕ → ℕ} {width height : ℕ} {rect : SlotRect}
    {p : Particle} :
    p ∈ prepareParticlesList data width height rect ↔
      ∃ x y : ℕ, x < width ∧ y < height ∧ x % 2 = 0 ∧ y % 2 = 0 ∧
        MIN_ALPHA_THRESHOLD ≤ data ((y * width + x) * 4 + 3) ∧
        p = sampleParticleAt data width rect x y := by
  constructor
  · intro hp
    simp only [prepareParticlesList, SAMPLE_STEP, List.mem_flatMap, List.mem_filterMap,
      List.mem_range'] at hp
    obtain ⟨y, ⟨j, hj, hy⟩, x, ⟨i, hi, hx⟩, hx2⟩ := hp
    by_cases hlt : data ((y * width + x) * 4 + 3) < MIN_ALPHA_THRESHOLD
    · rw [if_pos hlt] at hx2
      exact absurd hx2 (by simp)
    · rw [if_neg hlt] at hx2
      obtain rfl := (Option.some.injEq _ _).mp hx2
      exact ⟨x, y, by omega, by omega, by omega, by omega, not_lt.mp hlt, rfl⟩
  · rintro ⟨x, y, hxw, hyh, hx2, hy2, hth, rfl⟩
    simp only [prepareParticlesList, SAMPLE_STEP, List.mem_flatMap, List.mem_filterMap,
      List.mem_range']
    refine ⟨y, ⟨y / 2, by omega, by omega⟩, x, ⟨x / 2, by omega, by omega⟩, ?_⟩
    rw [if_neg (not_lt.mpr hth)]

/-- C6.  A sampling pass keeps exactly the stride-2 grid pixels inside the
`getImageData` grid whose alpha channel is at or above the minimum opacity
threshold (the source drops a pixel only when `alpha < 24`); each kept
sample's position is the rect origin plus the pixel coordinate plus half the
stride, its color channels are read directly from the pixel, and its alpha
weight is `pixelAlpha/255`.  The characterization mentions only the pixel
data and the rect — no randomness source appears — so re-sampling the same
image/rect pair yields the same particle list (hence the same count and
positions). -/
theorem sampler_characterization (data : ℕ → ℕ) (width height : ℕ) (rect : SlotRect) :
    (∀ p : Particle,
      p ∈ prepareParticlesList data width height rect ↔
        ∃ x y : ℕ, x < width ∧ y < height ∧ x % 2 = 0 ∧ y % 2 = 0 ∧
          MIN_ALPHA_THRESHOLD ≤ data ((y * width + x) * 4 + 3) ∧
          p = sampleParticleAt data width rect x y)
    ∧ (∀ x y : ℕ,
        (sampleParticleAt data width rect x y).x = rect.x + x + (SAMPLE_STEP : ℚ) / 2
        ∧ (sampleParticleAt data width rect x y).y = rect.y + y + (SAMPLE_STEP : ℚ) / 2
        ∧ (sampleParticleAt data width rect x y).color =
            { r := data ((y * width + x) * 4), g := data ((y * width + x) * 4 + 1),
              b := data ((y * width + x) * 4 + 2),
              a := (data ((y * width + x) * 4 + 3) : ℚ) / 255 }
        ∧ (sampleParticleAt data width rect x y).alpha =
            (data ((y * width + x) * 4 + 3) : ℚ) / 255)
    ∧ prepareParticlesList data width height rect =
        prepareParticlesList data width height rect := by
  refine ⟨fun p => mem_prepareParticlesList, fun x y => ⟨?_, ?_, rfl, rfl⟩, rfl⟩
  · show rect.x + (x : ℚ) + (SAMPLE_STEP : ℚ) * (1/2) = rect.x + x + (SAMPLE_STEP : ℚ) / 2
    ring
  · show rect.y + (y : ℚ) + (SAMPLE_STEP : ℚ) * (1/2) = rect.y + y + (SAMPLE_STEP : ℚ) / 2
    ring

/-! ## C7: alpha smoothing rates -/

/-- Counterexample to C7 as stated: the disassemble alpha rate (0.1) is NOT
strictly greater than the assemble alpha rate (0.12) — it is strictly
smaller. -/
theorem disassemble_rate_not_faster :
    DISASSEMBLE_ALPHA_RATE < ASSEMBLE_ALPHA_RATE
    ∧ ¬ ASSEMBLE_ALPHA_RATE < DISASSEMBLE_ALPHA_RATE := by
  norm_num [ASSEMBLE_ALPHA_RATE, DISASSEMBLE_ALPHA_RATE]

/-- C7 amended.  During a transition frame that does not complete, an
assembling slot's alpha moves toward 1 by exponential smoothing with the
assemble alpha rate, and a disassembling slot's alpha moves toward 0 by the
separate disassemble smoothing rate, which is slightly SLOWER (strictly
less) than the assemble rate. -/
theorem updateTransition_alpha_smoothing (slot : SlotState) (t : TransitionState) (ts : ℚ)
    (h : slot.transition = some t)
    (hcont : ts - t.startTime < t.durationMs ∨ ¬ allSettled slot.particles) :
    (t.status = TransitionStatus.assembling →
      (updateTransition slot ts).1.alpha =
        slot.alpha + (1 - slot.alpha) * ASSEMBLE_ALPHA_RATE)
    ∧ (t.status = TransitionStatus.disassembling →
      (updateTransition slot ts).1.alpha =
        slot.alpha + (0 - slot.alpha) * DISASSEMBLE_ALPHA_RATE)
    ∧ DISASSEMBLE_ALPHA_RATE < ASSEMBLE_ALPHA_RATE := by
  obtain ⟨st, t0, dur, rid, dir⟩ := t
  refine ⟨?_, ?_, by norm_num [ASSEMBLE_ALPHA_RATE, DISASSEMBLE_ALPHA_RATE]⟩ <;>
    intro hst <;> subst hst <;> simp only [updateTransition, h] <;>
    by_cases h1 : ts - t0 < dur
  · rw [if_pos h1]
  · rw [if_neg h1, if_neg (show ¬ allSettled _ from hcont.resolve_left h1)]
  · rw [if_pos h1]
  · rw [if_neg h1, if_neg (show ¬ allSettled _ from hcont.resolve_left h1)]

/-- A slot one frame into an assembling transition. -/
def slotC7 : SlotState :=
  { config := { id := "hero", rect := { x := 0, y := 0, w := 2, h := 2 },
                direction := Direction.top },
    visible := true, imageComplete := true,
    particles := [],
    status := SlotStatus.assembling,
    transition := some { status := TransitionStatus.assembling, startTime := 0,
                         durationMs := 1000, resolveId := 4, direction := Direction.top },
    alpha := 1/2 }

/-- Witness for the amended C7: one smoothing step on `slotC7` at timestamp
100 (duration not yet elapsed). -/
theorem updateTransition_alpha_smoothing_witness :
    (updateTransition slotC7 100).1.alpha = 1/2 + (1 - 1/2) * ASSEMBLE_ALPHA_RATE
    ∧ DISASSEMBLE_ALPHA_RATE < ASSEMBLE_ALPHA_RATE := by
  have h := updateTransition_alpha_smoothing slotC7
    { status := TransitionStatus.assembling, startTime := 0, durationMs := 1000,
      resolveId := 4, direction := Direction.top } 100 rfl (Or.inl (by norm_num))
  exact ⟨h.1 rfl, h.2.2⟩

/-! ## C8: pointer suppression under disabled interaction -/

/-- C8 amended.  With interaction disabled, slot-particle frame updates are
pointer-independent: for any two pointer states (any position, velocity,
active and down flags) — and even any two square-root implementations, since
the interaction branch never runs — the updated slot particles coincide.
(The pointer-suppression does NOT extend to ambient particles; see the
counterexample.) -/
theorem interaction_disabled_pointer_independent (sq1 sq2 : ℚ → ℚ)
    (m1 m2 : MouseState) (delta : ℚ) (ps : List Particle) :
    ps.map (updateImageParticle sq1 m1 false delta) =
      ps.map (updateImageParticle sq2 m2 false delta) := by
  refine List.map_congr_left fun p _ => ?_
  simp [updateImageParticle]

/-- An idle pointer at position (6,8). -/
def mouseOffC8 : MouseState :=
  { x := 6, y := 8, lastX := 0, lastY := 0, vx := 0, vy := 0, active := false, down := false }

/-- An active pointer at position (6,8). -/
def mouseOnC8 : MouseState :=
  { x := 6, y := 8, lastX := 0, lastY := 0, vx := 0, vy := 0, active := true, down := false }

/-- A resting ambient particle at the origin. -/
def ambC8 : AmbientParticle :=
  { x := 0, y := 0, vx := 0, vy := 0, baseVx := 0, baseVy := 0, size := 1, alpha := 1/4 }

/-- Evaluation of the modelled square root at the counterexample's distance. -/
lemma ratSqrt_hundred : ratSqrt 100 = 10 := by
  have h1 : ((100 : ℚ)).num = 100 := by norm_num
  have h2 : ((100 : ℚ)).den = 1 := by norm_num
  rw [ratSqrt, h1, h2]
  norm_num [show Int.toNat 100 = 100 from rfl, show intSqrt 100 = 10 from by decide,
    show intSqrt 1 = 1 from by decide]

/-- Counterexample to C8 as stated: ambient-particle updates read the
pointer WITHOUT consulting the interaction-enabled flag, so two frame
updates from the identical ambient particle `ambC8` that differ only in the
pointer's `active` flag produce different states (the active pointer at
distance 10 pushes the particle, giving a nonzero horizontal velocity). -/
theorem ambient_update_depends_on_pointer :
    (updateAmbientParticle ratSqrt mouseOffC8 100 100 1 ambC8).vx = 0
    ∧ (updateAmbientParticle ratSqrt mouseOnC8 100 100 1 ambC8).vx ≠ 0 := by
  constructor
  · norm_num [updateAmbientParticle, mouseOffC8, ambC8]
  · norm_num [updateAmbientParticle, mouseOnC8, ambC8, ratSqrt_hundred,
      AMBIENT_MOUSE_RADIUS, AMBIENT_MOUSE_FORCE, AMBIENT_FRICTION, AMBIENT_RETURN]

/-! ## C10: sampling seeds particles on target; the snap loop -/

/-- Each freshly sampled particle already sits on its target with zero
velocity, so snapping it is the identity. -/
lemma snapParticle_sample (data : ℕ → ℕ) (width : ℕ) (rect : SlotRect) (x y : ℕ) :
    snapParticle (sampleParticleAt data width rect x y) =
      sampleParticleAt data width rect x y := rfl

/-- C10 amended.  Every particle produced by a sampling pass is created with
its position exactly equal to its target and zero velocity, regardless of
slot status; snapping a freshly sampled list is the identity; consequently,
whenever `updateSlotRect` actually re-samples (decoded image and
positive-area new rect), its result carries exactly the fresh sample — the
extra snap-to-target loop for `assembled` slots changes nothing THERE.  (If
the new rect is degenerate the sampling pass is skipped and the snap loop
acts on the stale particles, where it is not a no-op; see the
counterexample.) -/
theorem sampling_on_target_and_snap_noop (data : ℕ → ℕ) (w h : ℕ) (rect : SlotRect)
    (slot : SlotState)
    (h1 : 0 < rect.w) (h2 : 0 < rect.h) (h3 : slot.imageComplete = true) :
    (∀ p ∈ prepareParticlesList data w h rect,
      p.x = p.tx ∧ p.y = p.ty ∧ p.vx = 0 ∧ p.vy = 0)
    ∧ (prepareParticlesList data w h rect).map snapParticle =
        prepareParticlesList data w h rect
    ∧ (updateSlotRect data slot rect).particles =
        prepareParticlesList data (sampleDim rect.w) (sampleDim rect.h) rect := by
  have hmem : ∀ p ∈ prepareParticlesList data w h rect,
      p.x = p.tx ∧ p.y = p.ty ∧ p.vx = 0 ∧ p.vy = 0 := by
    intro p hp
    obtain ⟨x, y, _, _, _, _, _, rfl⟩ := mem_prepareParticlesList.mp hp
    exact ⟨rfl, rfl, rfl, rfl⟩
  have hsnap : ∀ (w' h' : ℕ), (prepareParticlesList data w' h' rect).map snapParticle =
      prepareParticlesList data w' h' rect := by
    intro w' h'
    refine (List.map_congr_left fun p hp => ?_).trans (List.map_id _)
    obtain ⟨x, y, _, _, _, _, _, rfl⟩ := mem_prepareParticlesList.mp hp
    exact snapParticle_sample data w' rect x y
  refine ⟨hmem, hsnap w h, ?_⟩
  rw [updateSlotRect]
  rw [if_pos (show ({ slot with
      config := { slot.config with rect := rect } } : SlotState).imageComplete = true from h3)]
  have hprep : prepareParticles data { slot with config := { slot.config with rect := rect } } =
      { slot with
          config := { slot.config with rect := rect },
          particles := prepareParticlesList data (sampleDim rect.w) (sampleDim rect.h) rect } := by
    rw [prepareParticles, if_neg (by push_neg; exact ⟨h1, h2, by simp [h3]⟩)]
  rw [hprep]
  by_cases hst : slot.status = SlotStatus.assembled
  · rw [if_pos (show ({ slot with
        config := { slot.config with rect := rect },
        particles := prepareParticlesList data (sampleDim rect.w) (sampleDim rect.h)
          rect } : SlotState).status = SlotStatus.assembled from hst)]
    exact hsnap _ _
  · rw [if_neg (show ¬ ({ slot with
        config := { slot.config with rect := rect },
        particles := prepareParticlesList data (sampleDim rect.w) (sampleDim rect.h)
          rect } : SlotState).status = SlotStatus.assembled from hst)]

/-- An assembled slot whose particle was pushed off its target (as pointer
interaction can do after settle). -/
def slotC10 : SlotState :=
  { config := { id := "hero", rect := { x := 0, y := 0, w := 2, h := 2 },
                direction := Direction.top },
    visible := true, imageComplete := true,
    particles := [{ x := 5, y := 1, tx := 1, ty := 1, vx := 0, vy := 0,
                    color := { r := 0, g := 0, b := 0, a := 1 }, alpha := 1,
                    size := PARTICLE_SIZE }],
    status := SlotStatus.assembled,
    transition := none,
    alpha := 1 }

/-- Counterexample to C10 as stated: `updateSlotRect` with a degenerate new
rect (width 0) skips the sampling pass, yet its snap-to-target loop still
runs on the assembled slot and moves the stale particle from x = 5 onto its
target x = 1 — the "extra" snap loop is not always a no-op. -/
theorem updateSlotRect_degenerate_snap_changes_particles :
    (updateSlotRect (fun _ => 0) slotC10
        { x := 0, y := 0, w := 0, h := 2 }).particles.map Particle.x = [1]
    ∧ slotC10.particles.map Particle.x = [5] := by
  exact ⟨by decide, by decide⟩

/-- Witness for the amended C10: a positive-area re-rect of the assembled
`slotC10` (constant fully-opaque pixel data) yields exactly the fresh
sample — one particle, on target. -/
theorem sampling_on_target_and_snap_noop_witness :
    (updateSlotRect (fun _ => 255) slotC10 { x := 0, y := 0, w := 2, h := 2 }).particles =
      prepareParticlesList (fun _ => 255) (sampleDim 2) (sampleDim 2)
        { x := 0, y := 0, w := 2, h := 2 }
    ∧ (∀ p ∈ prepareParticlesList (fun _ => 255) 2 2 { x := 0, y := 0, w := 2, h := 2 },
        p.x = p.tx ∧ p.y = p.ty ∧ p.vx = 0 ∧ p.vy = 0) := by
  have h := sampling_on_target_and_snap_noop (fun _ => 255) 2 2
    { x := 0, y := 0, w := 2, h := 2 } slotC10 (by norm_num) (by norm_num) rfl
  exact ⟨h.2.2, h.1⟩

/-! ## Render-loop helper lemmas (for the busy-signal and starvation claims) -/

lemma updateTransition_transition_sub (s : SlotState) (ts : ℚ) (t' : TransitionState)
    (h : (updateTransition s ts).1.transition = some t') : s.transition = some t' := by
  match hm : s.transition with
  | none => simpa [updateTransition, hm] using h
  | some t =>
    obtain ⟨st, t0, dur, rid, dir⟩ := t
    cases st <;> simp only [updateTransition, hm] at h <;> split_ifs at h <;> simp_all

lemma updateTransition_resolve_src (s : SlotState) (ts : ℚ) (rid : ℕ)
    (h : (updateTransition s ts).2 = some rid) :
    ∃ t, s.transition = some t ∧ t.resolveId = rid := by
  rcases hm : s.transition with _ | ⟨st, t0, dur, r, dir⟩
  · simp [updateTransition, hm] at h
  · refine ⟨⟨st, t0, dur, r, dir⟩, rfl, ?_⟩
    cases st <;> simp only [updateTransition, hm] at h <;> split_ifs at h <;> simp_all

lemma renderSlot_skip (sq : ℚ → ℚ) (m : MouseState) (en : Bool) (ts δ : ℚ) (s : SlotState)
    (h : s.particles = []) : renderSlot sq m en ts δ s = (s, false, []) := by
  rw [renderSlot, if_pos (Or.inr h)]

lemma renderSlot_busy_eq (sq : ℚ → ℚ) (m : MouseState) (en : Bool) (ts δ : ℚ)
    (s : SlotState) : (renderSlot sq m en ts δ s).2.1 = countedInBusy s := by
  rw [renderSlot, countedInBusy]
  by_cases hv : s.visible = false ∨ s.particles = []
  · rw [if_pos hv]
    rcases hv with hv | hv
    · simp [hv]
    · simp [hv]
  · rw [if_neg hv]
    push_neg at hv
    obtain ⟨hv1, hp⟩ := hv
    have hv2 : s.visible = true := by revert hv1; cases s.visible <;> simp
    show s.transition.isSome = _
    simp [hv2, List.isEmpty_eq_false.mpr hp]

lemma renderSlot_transition_sub (sq : ℚ → ℚ) (m : MouseState) (en : Bool) (ts δ : ℚ)
    (s : SlotState) (t' : TransitionState)
    (h : (renderSlot sq m en ts δ s).1.transition = some t') : s.transition = some t' := by
  rw [renderSlot] at h
  by_cases hv : s.visible = false ∨ s.particles = []
  · rw [if_pos hv] at h
    exact h
  · rw [if_neg hv] at h
    by_cases ht : s.transition.isSome = true
    · have h' : (updateTransition s ts).1.transition = some t' := by simpa [ht] using h
      exact updateTransition_transition_sub s ts t' h'
    · simpa [ht] using h

lemma renderSlot_resolve_src (sq : ℚ → ℚ) (m : MouseState) (en : Bool) (ts δ : ℚ)
    (s : SlotState) (rid : ℕ) (h : rid ∈ (renderSlot sq m en ts δ s).2.2) :
    s.particles ≠ [] ∧ ∃ t, s.transition = some t ∧ t.resolveId = rid := by
  rw [renderSlot] at h
  by_cases hv : s.visible = false ∨ s.particles = []
  · rw [if_pos hv] at h
    simp at h
  · rw [if_neg hv] at h
    push_neg at hv
    refine ⟨hv.2, ?_⟩
    by_cases ht : s.transition.isSome = true
    · have h' : rid ∈ (updateTransition s ts).2.toList := by simpa [ht] using h
      have h'' : (updateTransition s ts).2 = some rid := by
        rcases hopt : (updateTransition s ts).2 with _ | r
        · rw [hopt] at h'
          simp at h'
        · rw [hopt] at h'
          simp at h'
          rw [h']
      exact updateTransition_resolve_src s ts rid h''
    · exact absurd (by simpa [ht] using h) (List.not_mem_nil rid)

lemma lookup_map_snd {α β : Type _} (l : List (String × α)) (g : α → β) (k : String) :
    (l.map (fun pr => (pr.1, g pr.2))).lookup k = (l.lookup k).map g := by
  induction l with
  | nil => rfl
  | cons hd tl ih =>
    simp only [List.map_cons, List.lookup]
    by_cases h : k == hd.1
    · simp [h]
    · simp only [h]
      simpa using ih

lemma render_hasTransition_eq (sq : ℚ → ℚ) (e : EngineState) (ts : ℚ) :
    (e.slots.any (fun pr =>
      (renderSlot sq e.mouse e.interactionEnabled ts (renderDelta e ts) pr.2).2.1)) =
      e.slots.any (fun pr => countedInBusy pr.2) :=
  congrArg _ (funext fun pr => renderSlot_busy_eq sq e.mouse e.interactionEnabled ts
    (renderDelta e ts) pr.2)

lemma render_busy_eq_counted (sq : ℚ → ℚ) (e : EngineState) (ts : ℚ) :
    (render sq e ts).1.busy = e.slots.any (fun pr => countedInBusy pr.2) :=
  render_hasTransition_eq sq e ts

lemma render_events_eq (sq : ℚ → ℚ) (e : EngineState) (ts : ℚ) :
    (render sq e ts).2 =
      ((e.slots.map (fun pr =>
        (renderSlot sq e.mouse e.interactionEnabled ts (renderDelta e ts) pr.2).2.2)).flatten.map
          EngineEvent.resolvePromise)
      ++ (if e.busy ≠ e.slots.any (fun pr =>
            (renderSlot sq e.mouse e.interactionEnabled ts (renderDelta e ts) pr.2).2.1)
          then [EngineEvent.busyChange (e.slots.any (fun pr =>
            (renderSlot sq e.mouse e.interactionEnabled ts (renderDelta e ts) pr.2).2.1))]
          else []) := rfl

lemma render_slots_eq (sq : ℚ → ℚ) (e : EngineState) (ts : ℚ) :
    (render sq e ts).1.slots = e.slots.map (fun pr =>
      (pr.1, (renderSlot sq e.mouse e.interactionEnabled ts (renderDelta e ts) pr.2).1)) := rfl

lemma render_lookup (sq : ℚ → ℚ) (e : EngineState) (ts : ℚ) (k : String) :
    (render sq e ts).1.slots.lookup k = (e.slots.lookup k).map (fun s =>
      (renderSlot sq e.mouse e.interactionEnabled ts (renderDelta e ts) s).1) := by
  rw [render_slots_eq]
  exact lookup_map_snd e.slots
    (fun s => (renderSlot sq e.mouse e.interactionEnabled ts (renderDelta e ts) s).1) k

/-- The starvation invariant: every slot whose open transition carries the
resolve identifier `r` has an empty particle list. -/
def noParticlesForResolve (r : ℕ) (e : EngineState) : Prop :=
  ∀ pr ∈ e.slots, ∀ t', pr.2.transition = some t' → t'.resolveId = r → pr.2.particles = []

lemma render_preserves_inv (sq : ℚ → ℚ) (e : EngineState) (ts : ℚ) (r : ℕ)
    (h : noParticlesForResolve r e) : noParticlesForResolve r (render sq e ts).1 := by
  intro pr hpr t' ht' hr
  rw [render_slots_eq] at hpr
  obtain ⟨pr0, hpr0, rfl⟩ := List.mem_map.mp hpr
  have hsub := renderSlot_transition_sub sq e.mouse e.interactionEnabled ts
    (renderDelta e ts) pr0.2 t' ht'
  have hp := h pr0 hpr0 t' hsub hr
  show (renderSlot sq e.mouse e.interactionEnabled ts (renderDelta e ts) pr0.2).1.particles = []
  rw [renderSlot_skip sq e.mouse e.interactionEnabled ts (renderDelta e ts) pr0.2 hp]
  exact hp

lemma render_no_resolve (sq : ℚ → ℚ) (e : EngineState) (ts : ℚ) (r : ℕ)
    (h : noParticlesForResolve r e) :
    EngineEvent.resolvePromise r ∉ (render sq e ts).2 := by
  intro hmem
  rw [render_events_eq] at hmem
  rcases List.mem_append.mp hmem with hm | hm
  · obtain ⟨rid, hin, heq⟩ := List.mem_map.mp hm
    have hrr : rid = r := by injection heq
    subst hrr
    obtain ⟨l, hl, hrl⟩ := List.mem_flatten.mp hin
    obtain ⟨pr0, hpr0, rfl⟩ := List.mem_map.mp hl
    obtain ⟨hne, t', ht', hrid⟩ := renderSlot_resolve_src sq e.mouse e.interactionEnabled ts
      (renderDelta e ts) pr0.2 rid hrl
    exact hne (h pr0 hpr0 t' ht' hrid)
  · by_cases hb : e.busy ≠ e.slots.any (fun pr =>
        (renderSlot sq e.mouse e.interactionEnabled ts (renderDelta e ts) pr.2).2.1)
    · rw [if_pos hb] at hm
      simp at hm
    · rw [if_neg hb] at hm
      exact List.not_mem_nil _ hm

/-! ## C5: the busy flag and its change callback -/

/-- C5 amended.  Each render frame recomputes the busy flag as "some slot
that is visible with a NONEMPTY particle list had an open transition at the
start of the frame", and the busy-change callback fires in that frame exactly
when the recomputed value differs from the stored flag (carrying the new
value); `updateBusyState` — run the moment a transition opens — instead
counts ALL open transitions and fires the callback under the same
changed-value rule, so busy turns true immediately when any transition
opens.  For slots that stay visible with nonempty particles the original
claim's equivalence holds, but a slot with an open transition and an empty
particle list is not counted by the per-frame recomputation (see the
counterexample). -/
theorem busy_flag_characterization (sq : ℚ → ℚ) (e : EngineState) (ts : ℚ) :
    ((render sq e ts).1.busy = e.slots.any (fun pr => countedInBusy pr.2))
    ∧ (∀ b : Bool, EngineEvent.busyChange b ∈ (render sq e ts).2 ↔
        b = e.slots.any (fun pr => countedInBusy pr.2) ∧
          e.busy ≠ e.slots.any (fun pr => countedInBusy pr.2))
    ∧ ((updateBusyState e).1.busy = anySlotHasTransition e)
    ∧ (∀ b : Bool, EngineEvent.busyChange b ∈ (updateBusyState e).2 ↔
        b = anySlotHasTransition e ∧ e.busy ≠ anySlotHasTransition e) := by
  refine ⟨render_busy_eq_counted sq e ts, ?_, ?_, ?_⟩
  · intro b
    rw [render_events_eq, render_hasTransition_eq]
    constructor
    · intro hmem
      rcases List.mem_append.mp hmem with hm | hm
      · exfalso
        obtain ⟨rid, _, heq⟩ := List.mem_map.mp hm
        exact EngineEvent.noConfusion heq
      · by_cases hb : e.busy ≠ e.slots.any (fun pr => countedInBusy pr.2)
        · rw [if_pos hb] at hm
          have hb2 := List.mem_singleton.mp hm
          exact ⟨by injection hb2, hb⟩
        · rw [if_neg hb] at hm
          exact absurd hm (List.not_mem_nil _)
    · rintro ⟨rfl, hb⟩
      refine List.mem_append.mpr (Or.inr ?_)
      rw [if_pos hb]
      exact List.mem_singleton.mpr rfl
  · rw [updateBusyState, anySlotHasTransition]
    by_cases hb : e.busy ≠ e.slots.any (fun pr => pr.2.transition.isSome)
    · rw [if_pos hb]
    · rw [if_neg hb]
      exact not_ne_iff.mp hb
  · intro b
    rw [updateBusyState, anySlotHasTransition]
    by_cases hb : e.busy ≠ e.slots.any (fun pr => pr.2.transition.isSome)
    · rw [if_pos hb]
      constructor
      · intro hm
        have hb2 := List.mem_singleton.mp hm
        exact ⟨by injection hb2, hb⟩
      · rintro ⟨rfl, _⟩
        exact List.mem_singleton.mpr rfl
    · rw [if_neg hb]
      constructor
      · intro hm
        exact absurd hm (List.not_mem_nil _)
      · rintro ⟨_, hb2⟩
        exact absurd hb2 hb

/-- A visible slot with an open transition but an empty particle list. -/
def slotC5 : SlotState :=
  { config := { id := "hero", rect := { x := 0, y := 0, w := 10, h := 10 },
                direction := Direction.top },
    visible := true, imageComplete := true,
    particles := [],
    status := SlotStatus.assembling,
    transition := some { status := TransitionStatus.assembling, startTime := 0,
                         durationMs := 100, resolveId := 2, direction := Direction.top },
    alpha := 0 }

/-- An engine whose busy flag is true (set when `slotC5`'s transition
opened) entering a render frame. -/
def engC5 : EngineState :=
  { width := 100, height := 100, slots := [("hero", slotC5)], ambient := [],
    interactionEnabled := false, busy := true, lastFrameTime := 0,
    mouse := { x := 0, y := 0, lastX := 0, lastY := 0, vx := 0, vy := 0,
               active := false, down := false } }

/-- Counterexample to C5 as stated: after the render frame at timestamp 5
the busy flag is `false` — and the callback even fired with `false` — while
a slot still has an open (never-settled) transition, so the busy flag does
NOT equal "some slot currently has an open transition" and does not stay
true until that transition settles. -/
theorem busy_false_while_transition_open :
    (render ratSqrt engC5 5).1.busy = false
    ∧ anySlotHasTransition (render ratSqrt engC5 5).1 = true
    ∧ engC5.busy = true
    ∧ EngineEvent.busyChange false ∈ (render ratSqrt engC5 5).2 := by
  refine ⟨by decide, by decide, rfl, by decide⟩

/-! ## C9: an open transition on a particle-less slot starves -/

/-- C9.  If a slot's particle list is empty while it has an open transition
(and no slot with particles shares that transition's resolve identifier),
then across any sequence of render frames the slot is skipped entirely: its
entry (state, open transition and all) is left untouched, the transition's
resolving continuation is never invoked — the pending assemble/disassemble
promise never resolves — and the slot is not counted by the per-frame busy
recomputation (the frame's busy value is the count over the OTHER
visible-with-particles slots only). -/
theorem empty_slot_transition_starves (sq : ℚ → ℚ) (e : EngineState) (tss : List ℚ)
    (ts0 : ℚ) (id : String) (s : SlotState) (t : TransitionState)
    (h1 : e.slots.lookup id = some s) (h2 : s.particles = [])
    (h3 : s.transition = some t) (h4 : noParticlesForResolve t.resolveId e) :
    (renderMany sq e tss).1.slots.lookup id = some s
    ∧ EngineEvent.resolvePromise t.resolveId ∉ (renderMany sq e tss).2
    ∧ countedInBusy s = false
    ∧ (render sq e ts0).1.busy = e.slots.any (fun pr => countedInBusy pr.2) := by
  have key : ∀ (tss' : List ℚ) (e' : EngineState), e'.slots.lookup id = some s →
      noParticlesForResolve t.resolveId e' →
      (renderMany sq e' tss').1.slots.lookup id = some s
      ∧ EngineEvent.resolvePromise t.resolveId ∉ (renderMany sq e' tss').2 := by
    intro tss'
    induction tss' with
    | nil =>
      intro e' ha _
      exact ⟨ha, by simp [renderMany]⟩
    | cons ts rest ih =>
      intro e' ha hb
      have hlk : (render sq e' ts).1.slots.lookup id = some s := by
        rw [render_lookup, ha, Option.map_some',
          renderSlot_skip sq e'.mouse e'.interactionEnabled ts (renderDelta e' ts) s h2]
      have hinv := render_preserves_inv sq e' ts t.resolveId hb
      have hnr := render_no_resolve sq e' ts t.resolveId hb
      obtain ⟨hrec1, hrec2⟩ := ih (render sq e' ts).1 hlk hinv
      refine ⟨hrec1, fun hmem => ?_⟩
      have hmem' : EngineEvent.resolvePromise t.resolveId ∈
          (render sq e' ts).2 ++ (renderMany sq (render sq e' ts).1 rest).2 := hmem
      rcases List.mem_append.mp hmem' with hmm | hmm
      · exact hnr hmm
      · exact hrec2 hmm
  obtain ⟨k1, k2⟩ := key tss e h1 h4
  refine ⟨k1, k2, ?_, render_busy_eq_counted sq e ts0⟩
  rw [countedInBusy, h2]
  simp

/-- A particle-less slot with an open transition (resolve identifier 3). -/
def slotC9 : SlotState :=
  { config := { id := "menu-video", rect := { x := 0, y := 0, w := 4, h := 4 },
                direction := Direction.top },
    visible := true, imageComplete := true,
    particles := [],
    status := SlotStatus.assembling,
    transition := some { status := TransitionStatus.assembling, startTime := 0,
                         durationMs := 100, resolveId := 3, direction := Direction.top },
    alpha := 0 }

/-- An engine holding only the particle-less transitioning slot `slotC9`. -/
def engC9 : EngineState :=
  { width := 50, height := 50, slots := [("menu-video", slotC9)], ambient := [],
    interactionEnabled := false, busy := true, lastFrameTime := 0,
    mouse := { x := 0, y := 0, lastX := 0, lastY := 0, vx := 0, vy := 0,
               active := false, down := false } }

/-- Witness for C9: two render frames over `engC9` leave the slot (and its
open transition) untouched, never resolve promise 3, and never count the
slot as busy. -/
theorem empty_slot_transition_starves_witness :
    (renderMany ratSqrt engC9 [10, 20]).1.slots.lookup "menu-video" = some slotC9
    ∧ EngineEvent.resolvePromise 3 ∉ (renderMany ratSqrt engC9 [10, 20]).2
    ∧ countedInBusy slotC9 = false
    ∧ (render ratSqrt engC9 10).1.busy = engC9.slots.any (fun pr => countedInBusy pr.2) := by
  have h := empty_slot_transition_starves ratSqrt engC9 [10, 20] 10 "menu-video" slotC9
    { status := TransitionStatus.assembling, startTime := 0, durationMs := 100,
      resolveId := 3, direction := Direction.top }
    rfl rfl rfl ?_
  · exact h
  · intro pr hpr t' _ _
    simp only [engC9, List.mem_singleton] at hpr
    subst hpr
    rfl

end ParticleEngine
